import Mathlib

/-!
# Verification of the CC3Texture subsystem (cocos3d-x)

A shallow embedding of the texture subsystem declared in
`src/cocos3d/Engine/libcocos3d/Materials/CC3Texture.h`: the `CC3Texture`
state (member variables `m_textureID` .. `m_hasPremultipliedAlpha`), its
texture-parameter accessors, mipmap generation, pixel replacement, the
decoded-content object `CC3Texture2DContent` with its flip operations, and
the class-side texture cache (`addTexture` / `getTextureNamed` /
`textureFromFile` / the cube-map factories / the preloading retention flag).

The repository ships only the header; the method bodies are not under
`src/`.  Behavioural definitions below are therefore modelled from the
specification and from the header's own doc comments, as indicated on each
definition.
-/

set_option autoImplicit false

namespace CC3

/-! ## OpenGL enumeration constants (numeric values of the GL API) -/

def GL_NEAREST : Nat := 0x2600

def GL_LINEAR : Nat := 0x2601

def GL_NEAREST_MIPMAP_NEAREST : Nat := 0x2700

def GL_LINEAR_MIPMAP_NEAREST : Nat := 0x2701

def GL_NEAREST_MIPMAP_LINEAR : Nat := 0x2702

def GL_LINEAR_MIPMAP_LINEAR : Nat := 0x2703

def GL_CLAMP_TO_EDGE : Nat := 0x812F

def GL_REPEAT : Nat := 0x2901

def GL_MIRRORED_REPEAT : Nat := 0x8370

def GL_RGBA : Nat := 0x1908

def GL_RGB : Nat := 0x1907

def GL_ALPHA : Nat := 0x1906

def GL_LUMINANCE : Nat := 0x1909

def GL_LUMINANCE_ALPHA : Nat := 0x190A

def GL_UNSIGNED_BYTE : Nat := 0x1401

def GL_UNSIGNED_SHORT_4_4_4_4 : Nat := 0x8033

def GL_UNSIGNED_SHORT_5_5_5_1 : Nat := 0x8034

def GL_UNSIGNED_SHORT_5_6_5 : Nat := 0x8363

def GL_TEXTURE_2D : Nat := 0x0DE1

/-! ## Basic value types (`CC3IntSize`, `ccColor4B`, `CC3Viewport`) -/

/-- Pixel dimensions of a texture (`CC3IntSize` with `GLint width, height`). -/
structure CC3IntSize where
  width : Nat
  height : Nat
deriving DecidableEq, Repr

/-- A 32-bit RGBA pixel (`ccColor4B`), one byte per component. -/
structure ccColor4B where
  r : Nat
  g : Nat
  b : Nat
  a : Nat
deriving DecidableEq, Repr

/-- A rectangular region (`CC3Viewport` with origin `x, y` and size `w, h`). -/
structure CC3Viewport where
  x : Nat
  y : Nat
  w : Nat
  h : Nat
deriving DecidableEq, Repr

/-- Modelled from the spec (glossary): a power-of-two dimension is one equal
to `2 ^ n`.  Computed by the usual bit test `n &&& (n - 1) == 0` on a
non-zero value. -/
def isPowerOfTwoDim (n : Nat) : Bool :=
  n != 0 && (n &&& (n - 1)) == 0

/-! ## The `CC3Texture` state

Field names follow the member variables declared in the header
(`m_textureID`, `m_size`, `m_pixelFormat`, `m_pixelType`,
`m_minifyingFunction`, `m_magnifyingFunction`,
`m_horizontalWrappingFunction`, `m_verticalWrappingFunction`,
`m_texParametersAreDirty`, `m_hasMipmap`, `m_isUpsideDown`,
`m_shouldFlipVerticallyOnLoad`, `m_shouldFlipHorizontallyOnLoad`,
`m_hasAlpha`, `m_hasPremultipliedAlpha`).  The uploaded GPU pixel store is
modelled as a function from (face target, x, y) to a packed texel value. -/

structure CC3Texture where
  m_textureID : Nat
  m_size : CC3IntSize
  m_pixelFormat : Nat
  m_pixelType : Nat
  m_minifyingFunction : Nat
  m_magnifyingFunction : Nat
  m_horizontalWrappingFunction : Nat
  m_verticalWrappingFunction : Nat
  m_texParametersAreDirty : Bool
  m_hasMipmap : Bool
  m_isUpsideDown : Bool
  m_shouldFlipVerticallyOnLoad : Bool
  m_shouldFlipHorizontallyOnLoad : Bool
  m_hasAlpha : Bool
  m_hasPremultipliedAlpha : Bool
  m_content : Nat → Nat → Nat → Nat

/-- `isPOTWidth`: whether the width of this texture is a power-of-two. -/
def isPOTWidth (t : CC3Texture) : Bool :=
  isPowerOfTwoDim t.m_size.width

/-- `isPOTHeight`: whether the height of this texture is a power-of-two. -/
def isPOTHeight (t : CC3Texture) : Bool :=
  isPowerOfTwoDim t.m_size.height

/-- `isPOT`: whether both the width and the height are a power-of-two. -/
def isPOT (t : CC3Texture) : Bool :=
  isPOTWidth t && isPOTHeight t

/-! ## Texture parameter accessors -/

/-- Modelled from the spec: a GPU parameter setter records the requested
value and marks the texture parameters dirty for the next bind; it raises
no error. -/
def setHorizontalWrappingFunction (t : CC3Texture) (f : Nat) : CC3Texture :=
  { t with m_horizontalWrappingFunction := f, m_texParametersAreDirty := true }

/-- Modelled from the spec and the header doc (lines 448-471): the values
`GL_REPEAT` and `GL_MIRRORED_REPEAT` can only be in effect when `isPOT`
holds; otherwise this property always returns `GL_CLAMP_TO_EDGE`. -/
def getHorizontalWrappingFunction (t : CC3Texture) : Nat :=
  if isPOT t then t.m_horizontalWrappingFunction else GL_CLAMP_TO_EDGE

/-- Modelled from the spec: the vertical analogue of
`setHorizontalWrappingFunction`; silent, no error. -/
def setVerticalWrappingFunction (t : CC3Texture) (f : Nat) : CC3Texture :=
  { t with m_verticalWrappingFunction := f, m_texParametersAreDirty := true }

/-- Modelled from the spec and the header doc (lines 473-496): returns
`GL_CLAMP_TO_EDGE` whenever the texture is not power-of-two. -/
def getVerticalWrappingFunction (t : CC3Texture) : Nat :=
  if isPOT t then t.m_verticalWrappingFunction else GL_CLAMP_TO_EDGE

/-- Modelled from the spec: records the minifying function and marks the
parameters dirty. -/
def setMinifyingFunction (t : CC3Texture) (f : Nat) : CC3Texture :=
  { t with m_minifyingFunction := f, m_texParametersAreDirty := true }

/-- Modelled from the spec and the header doc (lines 409-432): the four
mipmapped minifying functions require a mipmap; until one has been created
this property only returns `GL_NEAREST` (for the `GL_NEAREST...` settings)
or `GL_LINEAR` (for the `GL_LINEAR...` settings). -/
def getMinifyingFunction (t : CC3Texture) : Nat :=
  if t.m_hasMipmap then t.m_minifyingFunction
  else if t.m_minifyingFunction == GL_LINEAR
       || t.m_minifyingFunction == GL_LINEAR_MIPMAP_NEAREST
       || t.m_minifyingFunction == GL_LINEAR_MIPMAP_LINEAR then GL_LINEAR
  else GL_NEAREST

/-- Modelled from the spec: records the magnifying function and marks the
parameters dirty. -/
def setMagnifyingFunction (t : CC3Texture) (f : Nat) : CC3Texture :=
  { t with m_magnifyingFunction := f, m_texParametersAreDirty := true }

/-- `getMagnifyingFunction` returns the stored magnifying function. -/
def getMagnifyingFunction (t : CC3Texture) : Nat :=
  t.m_magnifyingFunction

/-- `setHasAlpha` directly overrides the alpha flag. -/
def setHasAlpha (t : CC3Texture) (b : Bool) : CC3Texture :=
  { t with m_hasAlpha := b }

/-! ## Mipmap generation -/

/-- Modelled from the spec (section 4.1) and the header doc (lines
358-377): `generateMipmap` is a no-op when a mipmap already exists or when
the dimensions are not both a power-of-two; otherwise it instructs the GPU
to build the chain and records `m_hasMipmap`. -/
def generateMipmap (t : CC3Texture) : CC3Texture :=
  if t.m_hasMipmap || !(isPOT t) then t
  else { t with m_hasMipmap := true }

/-- `hasMipmap`: whether a mipmap has been generated for this texture. -/
def hasMipmap (t : CC3Texture) : Bool :=
  t.m_hasMipmap

/-! ## Pixel conversion and `replacePixels` -/

/-- Modelled from the spec (section 4.1, `replacePixels`): incoming 32-bit
RGBA pixels are converted in place to the texture's pixel format and type
before upload; every supported target format needs at most 32 bits per
pixel.  The result is the packed texel value. -/
def convertPixel (format pixType : Nat) (c : ccColor4B) : Nat :=
  if format == GL_RGBA && pixType == GL_UNSIGNED_BYTE then
    c.r * 0x1000000 + c.g * 0x10000 + c.b * 0x100 + c.a
  else if format == GL_RGBA && pixType == GL_UNSIGNED_SHORT_4_4_4_4 then
    (c.r / 16) * 0x1000 + (c.g / 16) * 0x100 + (c.b / 16) * 0x10 + c.a / 16
  else if format == GL_RGBA && pixType == GL_UNSIGNED_SHORT_5_5_5_1 then
    (c.r / 8) * 0x800 + (c.g / 8) * 0x40 + (c.b / 8) * 2 + c.a / 128
  else if format == GL_RGB && pixType == GL_UNSIGNED_BYTE then
    c.r * 0x10000 + c.g * 0x100 + c.b
  else if format == GL_RGB && pixType == GL_UNSIGNED_SHORT_5_6_5 then
    (c.r / 8) * 0x800 + (c.g / 4) * 0x20 + c.b / 8
  else if format == GL_LUMINANCE_ALPHA then
    c.r * 0x100 + c.a
  else if format == GL_LUMINANCE then
    c.r
  else if format == GL_ALPHA then
    c.a
  else
    c.r * 0x1000000 + c.g * 0x10000 + c.b * 0x100 + c.a

/-- Whether pixel coordinate `(x, y)` lies inside rectangle `rect`. -/
def pixelInRect (rect : CC3Viewport) (x y : Nat) : Bool :=
  rect.x ≤ x && x < rect.x + rect.w && rect.y ≤ y && y < rect.y + rect.h

/-- Modelled from the spec (section 4.1) and the header doc (lines
547-584): `replacePixels` writes the supplied 32-bit RGBA pixel array into
the given rectangle of the given face target, converting each pixel to the
texture's format and type.  Content is read row-major, bottom row first,
tightly packed.  No other texture state changes; in particular an existing
mipmap is not regenerated. -/
def replacePixels (t : CC3Texture) (rect : CC3Viewport) (target : Nat)
    (colorArray : List ccColor4B) : CC3Texture :=
  { t with m_content := fun tgt x y =>
      if tgt == target && pixelInRect rect x y then
        match colorArray.get? ((y - rect.y) * rect.w + (x - rect.x)) with
        | some c => convertPixel t.m_pixelFormat t.m_pixelType c
        | none => t.m_content tgt x y
      else t.m_content tgt x y }

/-! ## Construction and operation sequences -/

/-- Modelled from the spec (section 4.1, `initWithSize`): produces a
texture in the Allocated-Empty state (GPU handle assigned, size and
format set, no mipmap).  Texture parameters take the class-side defaults
(`GL_LINEAR_MIPMAP_NEAREST`, `GL_LINEAR`, `GL_REPEAT`, `GL_REPEAT`). -/
def initWithSize (texId : Nat) (size : CC3IntSize) (format pixType : Nat) : CC3Texture :=
  { m_textureID := texId
    m_size := size
    m_pixelFormat := format
    m_pixelType := pixType
    m_minifyingFunction := GL_LINEAR_MIPMAP_NEAREST
    m_magnifyingFunction := GL_LINEAR
    m_horizontalWrappingFunction := GL_REPEAT
    m_verticalWrappingFunction := GL_REPEAT
    m_texParametersAreDirty := true
    m_hasMipmap := false
    m_isUpsideDown := false
    m_shouldFlipVerticallyOnLoad := true
    m_shouldFlipHorizontallyOnLoad := false
    m_hasAlpha := false
    m_hasPremultipliedAlpha := false
    m_content := fun _ _ _ => 0 }

/-- Modelled from the spec (section 4.1, `resizeTo`): resizes to the new
dimensions and discards all existing content, leaving the texture in the
Allocated-Empty state (so no mipmap remains). -/
def resizeTo (t : CC3Texture) (size : CC3IntSize) : CC3Texture :=
  { t with m_size := size, m_hasMipmap := false, m_content := fun _ _ _ => 0 }

/-- The per-instance mutating operations of `CC3Texture` modelled in this
development, used to state invariants over arbitrary operation sequences. -/
inductive TexOp where
  | genMipmap : TexOp
  | setHWrap (f : Nat) : TexOp
  | setVWrap (f : Nat) : TexOp
  | setMinFn (f : Nat) : TexOp
  | setMagFn (f : Nat) : TexOp
  | setAlpha (b : Bool) : TexOp
  | resize (size : CC3IntSize) : TexOp
  | replacePix (rect : CC3Viewport) (target : Nat) (colorArray : List ccColor4B) : TexOp

/-- Interpretation of a single texture operation. -/
def applyTexOp (t : CC3Texture) : TexOp → CC3Texture
  | .genMipmap => generateMipmap t
  | .setHWrap f => setHorizontalWrappingFunction t f
  | .setVWrap f => setVerticalWrappingFunction t f
  | .setMinFn f => setMinifyingFunction t f
  | .setMagFn f => setMagnifyingFunction t f
  | .setAlpha b => setHasAlpha t b
  | .resize size => resizeTo t size
  | .replacePix rect target colorArray => replacePixels t rect target colorArray

/-- Interpretation of a sequence of texture operations, first op first. -/
def applyTexOps (t : CC3Texture) : List TexOp → CC3Texture
  | [] => t
  | op :: ops => applyTexOps (applyTexOp t op) ops

/-- The invariant relating mipmap state to power-of-two dimensions. -/
def mipmapImpliesPOT (t : CC3Texture) : Prop :=
  t.m_hasMipmap = true → isPOT t = true

/-! ## Decoded image content (`CC3Texture2DContent`)

The decoded-image object holds a pixel buffer (`m_imageData`, modelled as
a coordinate-indexed pixel function), its dimensions, and the
`m_isUpsideDown` orientation flag. -/

structure CC3Texture2DContent where
  m_imageData : Nat → Nat → ccColor4B
  pixelsWide : Nat
  pixelsHigh : Nat
  m_isUpsideDown : Bool

/-- Modelled from the header doc (lines 1905-1911): flips this content
vertically; the value of the `isUpsideDown` property is toggled after
flipping. -/
def flipVertically (c : CC3Texture2DContent) : CC3Texture2DContent :=
  { c with
    m_imageData := fun x y => c.m_imageData x (c.pixelsHigh - 1 - y)
    m_isUpsideDown := !c.m_isUpsideDown }

/-- Modelled from the header doc (lines 1913-1914): flips this content
horizontally.  The header doc for this operation, unlike the ones for
`flipVertically` and `rotateHalfCircle`, states no toggle of the
`isUpsideDown` property, and a horizontal flip does not change vertical
orientation, so the flag is left unchanged. -/
def flipHorizontally (c : CC3Texture2DContent) : CC3Texture2DContent :=
  { c with m_imageData := fun x y => c.m_imageData (c.pixelsWide - 1 - x) y }

/-- Modelled from the header doc (lines 1916-1924): rotates the image by
180 degrees, equivalent to combined vertical and horizontal flips in one
pass; the value of the `isUpsideDown` property is toggled after rotating. -/
def rotateHalfCircle (c : CC3Texture2DContent) : CC3Texture2DContent :=
  { c with
    m_imageData := fun x y => c.m_imageData (c.pixelsWide - 1 - x) (c.pixelsHigh - 1 - y)
    m_isUpsideDown := !c.m_isUpsideDown }

/-! ## File-path naming -/

/-- Characters after the last path separator, accumulating the current
component and restarting it at each separator. -/
def lastComponentChars : List Char → List Char → List Char
  | [], acc => acc
  | ch :: rest, acc =>
    if ch = '/' then lastComponentChars rest []
    else lastComponentChars rest (acc ++ [ch])

/-- Modelled from the spec (section 4.2) and the header doc (lines
1174-1183): the last path component of a file path, stripped of any
directory prefix. -/
def lastPathComponent (s : String) : String :=
  String.mk (lastComponentChars s.data [])

/-- `textureNameFromFilePath` standardizes texture naming: it returns the
`lastPathComponent` of the specified file path (header doc lines
1174-1183). -/
def textureNameFromFilePath (filePath : String) : String :=
  lastPathComponent filePath

/-- Substitutes the given string for the first occurrence of the format
marker `%@` in the pattern. -/
def substMarkerChars : List Char → List Char → List Char
  | [], _ => []
  | '%' :: '@' :: rest, sub => sub ++ rest
  | ch :: rest, sub => ch :: substMarkerChars rest sub

/-- Modelled from the spec (section 4.2) and the header doc (lines
930-969): expands a cube-face file-path pattern by substituting the given
face token (or the empty string) into the `%@` format marker. -/
def substFormatMarker (pattern sub : String) : String :=
  String.mk (substMarkerChars pattern.data sub.data)

/-- The six cube-face tokens, in the fixed order in which they are
substituted into a file-path pattern (header doc lines 930-949). -/
def cubeFaceSubstrings : List String :=
  ["PosX", "NegX", "PosY", "NegY", "PosZ", "NegZ"]

/-! ## The texture cache

Texture identity is modelled by a unique numeric instance id, so that
"identical instance" (same object, not merely equal content) is
expressible.  Each cache entry records the name key, the texture, and the
retention mode captured from the process-wide preloading flag at insertion
time (strong = pinned, weak = auto-evicted once no external owner
remains). -/

/-- A texture as seen by the cache: its object identity and its name. -/
structure CachedTex where
  texId : Nat
  name : String
deriving DecidableEq, Repr

/-- One cache entry: name key, texture, and retention mode
(`strong = true` means pinned until explicitly removed). -/
structure TexCacheEntry where
  key : String
  tex : CachedTex
  strong : Bool
deriving DecidableEq, Repr

/-- The class-side cache state: the name-indexed entries, the external
strong-reference count of each texture id (owners outside the cache), the
process-wide `isPreloading` flag, and a fresh-id counter for newly loaded
instances. -/
structure TexCache where
  entries : List TexCacheEntry
  extRefs : Nat → Nat
  preloading : Bool
  nextId : Nat

/-- First entry stored under the given name, if any. -/
def findEntryNamed (nm : String) : List TexCacheEntry → Option TexCacheEntry
  | [] => none
  | e :: rest => if e.key = nm then some e else findEntryNamed nm rest

/-- The cache entry under the given name, if any. -/
def getEntryNamed (st : TexCache) (nm : String) : Option TexCacheEntry :=
  findEntryNamed nm st.entries

/-- `getTextureNamed`: the texture with the specified name, or absent if no
texture with that name has been added; never loads implicitly. -/
def getTextureNamed (st : TexCache) (nm : String) : Option CachedTex :=
  (getEntryNamed st nm).map (fun e => e.tex)

/-- Inserts a texture under its name, recording the retention mode from the
current value of the process-wide preloading flag. -/
def cacheInsert (st : TexCache) (t : CachedTex) : TexCache :=
  { st with entries := { key := t.name, tex := t, strong := st.preloading } :: st.entries }

/-- The assertion message raised on a duplicate-name insertion. -/
def duplicateNameAssertion (nm : String) : String :=
  "CC3Texture " ++ nm ++ " already exists in the texture cache"

/-- Modelled from the spec (section 4.5) and the header doc (lines
1196-1207): `addTexture` makes the texture accessible under its name; if a
texture with the same name already exists in the cache an assertion error
is raised (reported, not silently ignored) and the cache is not altered.
The retention mode recorded is the current value of the preloading flag. -/
def addTexture (st : TexCache) (t : CachedTex) : Except String TexCache :=
  match getTextureNamed st t.name with
  | some _ => .error (duplicateNameAssertion t.name)
  | none => .ok (cacheInsert st t)

/-- `removeTextureNamed`: unconditionally removes the entry with the given
name, regardless of its retention mode. -/
def removeTextureNamed (st : TexCache) (nm : String) : TexCache :=
  { st with entries := st.entries.filter (fun e => e.key != nm) }

/-! ## Cache-aware factory entry points

The external file decoder is a parameter `files : String → Bool` telling
whether the decode of a path succeeds (the decoder is an external
collaborator in the spec, section 6).  Each factory result also reports how
many file-decode attempts were made, so that "without loading the file
again" is expressible. -/

/-- Modelled from the spec (section 4.2) and the header doc (lines
676-717): the cache-aware `textureFromFile` derives the cache name from the
file path; on a cache hit it returns the cached instance without loading;
on a miss it loads the file (one decode attempt), and on success registers
the new instance in the cache under that name. -/
def textureFromFile (files : String → Bool) (st : TexCache) (filePath : String) :
    Option CachedTex × TexCache × Nat :=
  let nm := textureNameFromFilePath filePath
  match getTextureNamed st nm with
  | some t => (some t, st, 0)
  | none =>
    if files filePath then
      let t : CachedTex := { texId := st.nextId, name := nm }
      (some t, { cacheInsert st t with nextId := st.nextId + 1 }, 1)
    else
      (none, st, 1)

/-- Modelled from the spec (sections 4.2, 7) and the header doc (lines
873-928): the cache-aware six-file cube factory.  The instance name is the
unqualified file name of the `posX` path.  On a cache miss, all six face
decodes must succeed; if any face fails the whole operation fails, no cube
texture is constructed, and the cache is unmodified. -/
def textureCubeFromFiles (files : String → Bool) (st : TexCache)
    (posXFilePath negXFilePath posYFilePath negYFilePath posZFilePath negZFilePath : String) :
    Option CachedTex × TexCache :=
  let nm := textureNameFromFilePath posXFilePath
  match getTextureNamed st nm with
  | some t => (some t, st)
  | none =>
    if files posXFilePath && files negXFilePath && files posYFilePath
        && files negYFilePath && files posZFilePath && files negZFilePath then
      let t : CachedTex := { texId := st.nextId, name := nm }
      (some t, { cacheInsert st t with nextId := st.nextId + 1 })
    else
      (none, st)

/-- Modelled from the spec (section 4.2) and the header doc (lines
930-1023): the cache-aware cube-pattern factory.  The instance name is the
unqualified file name derived from substituting the empty string into the
`%@` format marker of the pattern; the six face files are derived by
substituting the six face tokens.  All six decodes must succeed, else the
operation fails and the cache is unmodified. -/
def textureCubeFromFilePattern (files : String → Bool) (st : TexCache)
    (aFilePathPattern : String) : Option CachedTex × TexCache :=
  let nm := textureNameFromFilePath (substFormatMarker aFilePathPattern "")
  match getTextureNamed st nm with
  | some t => (some t, st)
  | none =>
    if (cubeFaceSubstrings.map (fun face => substFormatMarker aFilePathPattern face)).all files then
      let t : CachedTex := { texId := st.nextId, name := nm }
      (some t, { cacheInsert st t with nextId := st.nextId + 1 })
    else
      (none, st)

/-! ## Cache lifecycle operations (retention and pruning) -/

/-- Pointwise update of the external reference-count table. -/
def setExtRef (f : Nat → Nat) (id n : Nat) : Nat → Nat :=
  fun j => if j = id then n else f j

/-- The cache-level operations modelled in this development. -/
inductive CacheOp where
  | setIsPreloading (b : Bool) : CacheOp
  | add (t : CachedTex) : CacheOp
  | retainTexture (id : Nat) : CacheOp
  | releaseTexture (id : Nat) : CacheOp
  | removeNamed (nm : String) : CacheOp
deriving DecidableEq, Repr

/-- Modelled from the spec (sections 4.5, 9): interpretation of one cache
operation.  `add` registers the texture (its adding client holding one
external reference); a failed duplicate-name add leaves the state
unchanged.  `releaseTexture` drops one external reference; when the last
external owner of a texture releases it, every weak entry for that texture
is automatically pruned, while strong (preloading) entries survive.
`removeNamed` is the explicit, unconditional removal. -/
def applyCacheOp (st : TexCache) : CacheOp → TexCache
  | .setIsPreloading b => { st with preloading := b }
  | .add t =>
    match addTexture st t with
    | .ok st' => { st' with extRefs := setExtRef st'.extRefs t.texId 1 }
    | .error _ => st
  | .retainTexture id => { st with extRefs := setExtRef st.extRefs id (st.extRefs id + 1) }
  | .releaseTexture id =>
    let n := st.extRefs id - 1
    let st' := { st with extRefs := setExtRef st.extRefs id n }
    if n = 0 then
      { st' with entries := st'.entries.filter (fun e => e.strong || e.tex.texId != id) }
    else st'
  | .removeNamed nm => removeTextureNamed st nm

/-- Interpretation of a sequence of cache operations, first op first. -/
def applyCacheOps (st : TexCache) : List CacheOp → TexCache
  | [] => st
  | op :: ops => applyCacheOps (applyCacheOp st op) ops

/-! ## Theorems -/

/-- Texture-parameter setters leave the dimensions unchanged. -/
theorem isPOT_setHWrap (t : CC3Texture) (f : Nat) :
    isPOT (setHorizontalWrappingFunction t f) = isPOT t := rfl

/-- Texture-parameter setters leave the dimensions unchanged. -/
theorem isPOT_setVWrap (t : CC3Texture) (f : Nat) :
    isPOT (setVerticalWrappingFunction t f) = isPOT t := rfl

/-- C4: after any attempted mutation of the horizontal or vertical wrapping
function, the wrapping function reads back as repeat or mirrored-repeat
only if the texture is power-of-two; on a non-power-of-two texture any
requested wrap function reads back as `GL_CLAMP_TO_EDGE`.  The coercion is
silent: the setters are total and signal no error. -/
theorem wrap_function_pot_invariant (t : CC3Texture) (f : Nat) :
    ((getHorizontalWrappingFunction (setHorizontalWrappingFunction t f) = GL_REPEAT ∨
      getHorizontalWrappingFunction (setHorizontalWrappingFunction t f) = GL_MIRRORED_REPEAT) →
      isPOT (setHorizontalWrappingFunction t f) = true) ∧
    ((getVerticalWrappingFunction (setVerticalWrappingFunction t f) = GL_REPEAT ∨
      getVerticalWrappingFunction (setVerticalWrappingFunction t f) = GL_MIRRORED_REPEAT) →
      isPOT (setVerticalWrappingFunction t f) = true) ∧
    (isPOT t = false →
      getHorizontalWrappingFunction (setHorizontalWrappingFunction t f) = GL_CLAMP_TO_EDGE ∧
      getVerticalWrappingFunction (setVerticalWrappingFunction t f) = GL_CLAMP_TO_EDGE) := by
  refine ⟨?_, ?_, ?_⟩
  · intro h
    rw [isPOT_setHWrap]
    cases hb : isPOT t with
    | true => rfl
    | false =>
      exfalso
      have hc : getHorizontalWrappingFunction (setHorizontalWrappingFunction t f)
          = GL_CLAMP_TO_EDGE := by
        simp [getHorizontalWrappingFunction, isPOT_setHWrap, hb]
      rw [hc] at h
      rcases h with h | h <;> simp [GL_CLAMP_TO_EDGE, GL_REPEAT, GL_MIRRORED_REPEAT] at h
  · intro h
    rw [isPOT_setVWrap]
    cases hb : isPOT t with
    | true => rfl
    | false =>
      exfalso
      have hc : getVerticalWrappingFunction (setVerticalWrappingFunction t f)
          = GL_CLAMP_TO_EDGE := by
        simp [getVerticalWrappingFunction, isPOT_setVWrap, hb]
      rw [hc] at h
      rcases h with h | h <;> simp [GL_CLAMP_TO_EDGE, GL_REPEAT, GL_MIRRORED_REPEAT] at h
  · intro hb
    constructor
    · simp [getHorizontalWrappingFunction, isPOT_setHWrap, hb]
    · simp [getVerticalWrappingFunction, isPOT_setVWrap, hb]

/-- C4 witness: a 100x50 texture is not power-of-two and a requested
`GL_REPEAT` wrap reads back as `GL_CLAMP_TO_EDGE`. -/
theorem wrap_function_pot_invariant_witness :
    isPOT (initWithSize 1 ⟨100, 50⟩ GL_RGBA GL_UNSIGNED_BYTE) = false ∧
    getHorizontalWrappingFunction
        (setHorizontalWrappingFunction (initWithSize 1 ⟨100, 50⟩ GL_RGBA GL_UNSIGNED_BYTE) GL_REPEAT)
      = GL_CLAMP_TO_EDGE :=
  ⟨by decide,
   ((wrap_function_pot_invariant (initWithSize 1 ⟨100, 50⟩ GL_RGBA GL_UNSIGNED_BYTE)
      GL_REPEAT).2.2 (by decide)).1⟩

/-- Each modelled texture operation preserves the mipmap/POT invariant. -/
theorem applyTexOp_preserves_mipmapImpliesPOT (t : CC3Texture) (op : TexOp)
    (h : mipmapImpliesPOT t) : mipmapImpliesPOT (applyTexOp t op) := by
  cases op with
  | genMipmap =>
    simp only [applyTexOp, generateMipmap]
    split
    · exact h
    · rename_i hcond
      simp only [Bool.or_eq_true, Bool.not_eq_true', not_or, Bool.not_eq_false] at hcond
      intro _
      exact hcond.2
  | setHWrap f => exact h
  | setVWrap f => exact h
  | setMinFn f => exact h
  | setMagFn f => exact h
  | setAlpha b => exact h
  | resize size =>
    intro hx
    simp only [applyTexOp, resizeTo] at hx
    cases hx
  | replacePix rect target colorArray => exact h

/-- C5: `generateMipmap` is idempotent; it is a silent no-op when a mipmap
already exists or the dimensions are not both power-of-two, and otherwise
sets `hasMipmap`; and the invariant "hasMipmap implies power-of-two" is
preserved by every modelled operation sequence and holds for freshly
initialized textures. -/
theorem generateMipmap_idempotent_guarded (t : CC3Texture) (ops : List TexOp)
    (texId : Nat) (size : CC3IntSize) (format pixType : Nat) :
    generateMipmap (generateMipmap t) = generateMipmap t ∧
    (t.m_hasMipmap = true → generateMipmap t = t) ∧
    (isPOT t = false → generateMipmap t = t) ∧
    (t.m_hasMipmap = false → isPOT t = true → (generateMipmap t).m_hasMipmap = true) ∧
    mipmapImpliesPOT (initWithSize texId size format pixType) ∧
    (mipmapImpliesPOT t → mipmapImpliesPOT (applyTexOps t ops)) := by
  refine ⟨?_, ?_, ?_, ?_, ?_, ?_⟩
  · by_cases hc : (t.m_hasMipmap || !(isPOT t)) = true
    · simp [generateMipmap, hc]
    · have hr : generateMipmap t = { t with m_hasMipmap := true } := by
        simp [generateMipmap, hc]
      rw [hr]
      simp [generateMipmap]
  · intro hm
    simp [generateMipmap, hm]
  · intro hp
    simp [generateMipmap, hp]
  · intro hm hp
    simp [generateMipmap, hm, hp]
  · intro hx
    simp only [initWithSize] at hx
    cases hx
  · intro h
    induction ops generalizing t with
    | nil => exact h
    | cons op rest ih =>
      exact ih (applyTexOp t op) (applyTexOp_preserves_mipmapImpliesPOT t op h)

/-- C5 witness: on a 64x64 texture `generateMipmap` sets `hasMipmap` and a
second call is a no-op; on a 100x50 texture it is a no-op. -/
theorem generateMipmap_idempotent_guarded_witness :
    (generateMipmap (initWithSize 1 ⟨64, 64⟩ GL_RGBA GL_UNSIGNED_BYTE)).m_hasMipmap = true ∧
    generateMipmap (generateMipmap (initWithSize 1 ⟨64, 64⟩ GL_RGBA GL_UNSIGNED_BYTE))
      = generateMipmap (initWithSize 1 ⟨64, 64⟩ GL_RGBA GL_UNSIGNED_BYTE) ∧
    generateMipmap (initWithSize 2 ⟨100, 50⟩ GL_RGBA GL_UNSIGNED_BYTE)
      = initWithSize 2 ⟨100, 50⟩ GL_RGBA GL_UNSIGNED_BYTE :=
  ⟨(generateMipmap_idempotent_guarded (initWithSize 1 ⟨64, 64⟩ GL_RGBA GL_UNSIGNED_BYTE) []
      1 ⟨64, 64⟩ GL_RGBA GL_UNSIGNED_BYTE).2.2.2.1 rfl (by decide),
   (generateMipmap_idempotent_guarded (initWithSize 1 ⟨64, 64⟩ GL_RGBA GL_UNSIGNED_BYTE) []
      1 ⟨64, 64⟩ GL_RGBA GL_UNSIGNED_BYTE).1,
   (generateMipmap_idempotent_guarded (initWithSize 2 ⟨100, 50⟩ GL_RGBA GL_UNSIGNED_BYTE) []
      2 ⟨100, 50⟩ GL_RGBA GL_UNSIGNED_BYTE).2.2.1 (by decide)⟩

/-- C10: with no mipmap present, a minifying function set to one of the
four mipmapped values reads back degraded to `GL_NEAREST` or `GL_LINEAR`
according to its family; once a mipmap has been generated it reads back as
the value that was set. -/
theorem minifying_function_degrades_without_mipmap (t : CC3Texture) (f : Nat)
    (hm : t.m_hasMipmap = false) :
    ((f = GL_NEAREST_MIPMAP_NEAREST ∨ f = GL_NEAREST_MIPMAP_LINEAR) →
      getMinifyingFunction (setMinifyingFunction t f) = GL_NEAREST) ∧
    ((f = GL_LINEAR_MIPMAP_NEAREST ∨ f = GL_LINEAR_MIPMAP_LINEAR) →
      getMinifyingFunction (setMinifyingFunction t f) = GL_LINEAR) ∧
    ((f = GL_NEAREST_MIPMAP_NEAREST ∨ f = GL_LINEAR_MIPMAP_NEAREST ∨
      f = GL_NEAREST_MIPMAP_LINEAR ∨ f = GL_LINEAR_MIPMAP_LINEAR) →
      isPOT t = true →
      getMinifyingFunction (generateMipmap (setMinifyingFunction t f)) = f) := by
  have hmm : (setMinifyingFunction t f).m_hasMipmap = false := hm
  refine ⟨?_, ?_, ?_⟩
  · rintro (rfl | rfl) <;>
      simp [getMinifyingFunction, setMinifyingFunction, hm,
        GL_NEAREST, GL_LINEAR, GL_NEAREST_MIPMAP_NEAREST, GL_NEAREST_MIPMAP_LINEAR,
        GL_LINEAR_MIPMAP_NEAREST, GL_LINEAR_MIPMAP_LINEAR]
  · rintro (rfl | rfl) <;>
      simp [getMinifyingFunction, setMinifyingFunction, hm,
        GL_NEAREST, GL_LINEAR, GL_NEAREST_MIPMAP_NEAREST, GL_NEAREST_MIPMAP_LINEAR,
        GL_LINEAR_MIPMAP_NEAREST, GL_LINEAR_MIPMAP_LINEAR]
  · intro _ hp
    have hpm : isPOT (setMinifyingFunction t f) = true := hp
    have hgen : generateMipmap (setMinifyingFunction t f)
        = { setMinifyingFunction t f with m_hasMipmap := true } := by
      simp [generateMipmap, hmm, hpm]
    rw [hgen]
    simp [getMinifyingFunction, setMinifyingFunction]

/-- C10 witness: on a freshly initialized 64x64 texture,
`GL_LINEAR_MIPMAP_LINEAR` reads back as `GL_LINEAR` before a mipmap exists
and as `GL_LINEAR_MIPMAP_LINEAR` after `generateMipmap`. -/
theorem minifying_function_degrades_witness :
    (initWithSize 1 ⟨64, 64⟩ GL_RGBA GL_UNSIGNED_BYTE).m_hasMipmap = false ∧
    getMinifyingFunction
        (setMinifyingFunction (initWithSize 1 ⟨64, 64⟩ GL_RGBA GL_UNSIGNED_BYTE)
          GL_LINEAR_MIPMAP_LINEAR) = GL_LINEAR ∧
    getMinifyingFunction
        (generateMipmap (setMinifyingFunction (initWithSize 1 ⟨64, 64⟩ GL_RGBA GL_UNSIGNED_BYTE)
          GL_LINEAR_MIPMAP_LINEAR)) = GL_LINEAR_MIPMAP_LINEAR :=
  ⟨rfl,
   (minifying_function_degrades_without_mipmap (initWithSize 1 ⟨64, 64⟩ GL_RGBA GL_UNSIGNED_BYTE)
      GL_LINEAR_MIPMAP_LINEAR rfl).2.1 (Or.inr rfl),
   (minifying_function_degrades_without_mipmap (initWithSize 1 ⟨64, 64⟩ GL_RGBA GL_UNSIGNED_BYTE)
      GL_LINEAR_MIPMAP_LINEAR rfl).2.2
      (Or.inr (Or.inr (Or.inr rfl))) (by decide)⟩

/-- C7: on a texture in the Allocated-Content state with a generated
mipmap, `replacePixels` uploads the new (converted) content into the given
rectangle of the given target and changes nothing else: `hasMipmap` and
every other state component are unchanged (the mipmap is not regenerated),
and pixels outside the rectangle or on other targets keep their values. -/
theorem replacePixels_no_state_change (t : CC3Texture) (rect : CC3Viewport) (target : Nat)
    (colorArray : List ccColor4B)
    (_halloc : t.m_textureID ≠ 0) (hmip : t.m_hasMipmap = true) :
    (replacePixels t rect target colorArray).m_hasMipmap = true ∧
    (replacePixels t rect target colorArray).m_textureID = t.m_textureID ∧
    (replacePixels t rect target colorArray).m_size = t.m_size ∧
    (replacePixels t rect target colorArray).m_pixelFormat = t.m_pixelFormat ∧
    (replacePixels t rect target colorArray).m_pixelType = t.m_pixelType ∧
    (replacePixels t rect target colorArray).m_minifyingFunction = t.m_minifyingFunction ∧
    (replacePixels t rect target colorArray).m_magnifyingFunction = t.m_magnifyingFunction ∧
    (replacePixels t rect target colorArray).m_horizontalWrappingFunction
      = t.m_horizontalWrappingFunction ∧
    (replacePixels t rect target colorArray).m_verticalWrappingFunction
      = t.m_verticalWrappingFunction ∧
    (replacePixels t rect target colorArray).m_texParametersAreDirty
      = t.m_texParametersAreDirty ∧
    (replacePixels t rect target colorArray).m_isUpsideDown = t.m_isUpsideDown ∧
    (replacePixels t rect target colorArray).m_hasAlpha = t.m_hasAlpha ∧
    (replacePixels t rect target colorArray).m_hasPremultipliedAlpha
      = t.m_hasPremultipliedAlpha ∧
    (∀ tgt x y, (tgt == target && pixelInRect rect x y) = false →
      (replacePixels t rect target colorArray).m_content tgt x y = t.m_content tgt x y) ∧
    (∀ x y c, pixelInRect rect x y = true →
      colorArray.get? ((y - rect.y) * rect.w + (x - rect.x)) = some c →
      (replacePixels t rect target colorArray).m_content target x y
        = convertPixel t.m_pixelFormat t.m_pixelType c) := by
  refine ⟨hmip, rfl, rfl, rfl, rfl, rfl, rfl, rfl, rfl, rfl, rfl, rfl, rfl, ?_, ?_⟩
  · intro tgt x y hout
    simp only [replacePixels]
    split
    · rename_i hcond
      rw [hout] at hcond
      cases hcond
    · rfl
  · intro x y c hin hget
    simp only [replacePixels]
    split
    · rw [hget]
    · rename_i hcond
      exfalso
      apply hcond
      simp [hin]

/-- C7 witness: replacing one pixel of a mipmapped 2x2 RGBA texture leaves
`hasMipmap` true and the pixel at the opposite corner unchanged. -/
theorem replacePixels_no_state_change_witness :
    (generateMipmap (initWithSize 1 ⟨2, 2⟩ GL_RGBA GL_UNSIGNED_BYTE)).m_textureID ≠ 0 ∧
    (generateMipmap (initWithSize 1 ⟨2, 2⟩ GL_RGBA GL_UNSIGNED_BYTE)).m_hasMipmap = true ∧
    (replacePixels (generateMipmap (initWithSize 1 ⟨2, 2⟩ GL_RGBA GL_UNSIGNED_BYTE))
        ⟨0, 0, 1, 1⟩ GL_TEXTURE_2D [⟨1, 2, 3, 4⟩]).m_hasMipmap = true ∧
    (replacePixels (generateMipmap (initWithSize 1 ⟨2, 2⟩ GL_RGBA GL_UNSIGNED_BYTE))
        ⟨0, 0, 1, 1⟩ GL_TEXTURE_2D [⟨1, 2, 3, 4⟩]).m_content GL_TEXTURE_2D 1 1
      = (generateMipmap (initWithSize 1 ⟨2, 2⟩ GL_RGBA GL_UNSIGNED_BYTE)).m_content
          GL_TEXTURE_2D 1 1 :=
  ⟨by decide, by decide,
   (replacePixels_no_state_change (generateMipmap (initWithSize 1 ⟨2, 2⟩ GL_RGBA GL_UNSIGNED_BYTE))
      ⟨0, 0, 1, 1⟩ GL_TEXTURE_2D [⟨1, 2, 3, 4⟩] (by decide) (by decide)).1,
   (replacePixels_no_state_change (generateMipmap (initWithSize 1 ⟨2, 2⟩ GL_RGBA GL_UNSIGNED_BYTE))
      ⟨0, 0, 1, 1⟩ GL_TEXTURE_2D [⟨1, 2, 3, 4⟩] (by decide)
      (by decide)).2.2.2.2.2.2.2.2.2.2.2.2.2.1 GL_TEXTURE_2D 1 1 (by decide)⟩

/-- C8 counterexample: the claim that every flip operation toggles the
`isUpsideDown` flag is false for `flipHorizontally`: on a concrete decoded
content object with the flag initially false, a horizontal flip leaves the
flag false rather than toggling it to true. -/
theorem flipHorizontally_does_not_toggle :
    ¬ ((flipHorizontally
          { m_imageData := fun _ _ => ⟨0, 0, 0, 0⟩
            pixelsWide := 2
            pixelsHigh := 2
            m_isUpsideDown := false }).m_isUpsideDown
        = !(({ m_imageData := fun _ _ => ⟨0, 0, 0, 0⟩
               pixelsWide := 2
               pixelsHigh := 2
               m_isUpsideDown := false } : CC3Texture2DContent).m_isUpsideDown)) := by
  intro h
  simp [flipHorizontally] at h

/-- C8 (amended): a vertical flip or a half-circle rotation toggles the
`isUpsideDown` flag; a horizontal flip leaves it unchanged.  The flag is
informational only: none of the flip operations reads it, so the resulting
pixel data is independent of the flag's value and the flag never itself
triggers a further flip. -/
theorem flip_operations_isUpsideDown (c : CC3Texture2DContent) (b : Bool) :
    (flipVertically c).m_isUpsideDown = !c.m_isUpsideDown ∧
    (rotateHalfCircle c).m_isUpsideDown = !c.m_isUpsideDown ∧
    (flipHorizontally c).m_isUpsideDown = c.m_isUpsideDown ∧
    (flipVertically { c with m_isUpsideDown := b }).m_imageData
      = (flipVertically c).m_imageData ∧
    (flipHorizontally { c with m_isUpsideDown := b }).m_imageData
      = (flipHorizontally c).m_imageData ∧
    (rotateHalfCircle { c with m_isUpsideDown := b }).m_imageData
      = (rotateHalfCircle c).m_imageData :=
  ⟨rfl, rfl, rfl, rfl, rfl, rfl⟩

/-- C1: if the cache-aware `textureFromFile` succeeds and returns texture
`t` with resulting cache state `s1`, then a second call on `s1` with the
same file path returns the identical instance `t` (same object identity),
leaves the cache state unchanged, and performs zero file-decode attempts. -/
theorem textureFromFile_second_call_identical (files : String → Bool) (st : TexCache)
    (filePath : String) (t : CachedTex) (s1 : TexCache) (n : Nat)
    (h : textureFromFile files st filePath = (some t, s1, n)) :
    textureFromFile files s1 filePath = (some t, s1, 0) := by
  simp only [textureFromFile] at h ⊢
  cases hc : getTextureNamed st (textureNameFromFilePath filePath) with
  | some u =>
    rw [hc] at h
    simp only [Prod.mk.injEq, Option.some.injEq] at h
    obtain ⟨h1, h2, _⟩ := h
    subst h1
    rw [← h2, hc]
  | none =>
    rw [hc] at h
    cases hf : files filePath with
    | true =>
      rw [hf] at h
      simp only [if_true, Prod.mk.injEq, Option.some.injEq] at h
      obtain ⟨h1, h2, _⟩ := h
      subst h1
      subst h2
      have hfind : getTextureNamed
          { cacheInsert st ⟨st.nextId, textureNameFromFilePath filePath⟩ with
              nextId := st.nextId + 1 } (textureNameFromFilePath filePath)
          = some ⟨st.nextId, textureNameFromFilePath filePath⟩ := by
        simp [getTextureNamed, getEntryNamed, cacheInsert, findEntryNamed]
      rw [hfind]
    | false =>
      rw [hf] at h
      simp at h

/-- C1 witness: loading `dir/tex.png` into an empty cache and then calling
again returns the identical instance with zero decode attempts. -/
theorem textureFromFile_second_call_witness :
    textureFromFile (fun _ => true)
        { entries := [], extRefs := fun _ => 0, preloading := false, nextId := 0 }
        "dir/tex.png"
      = (some ⟨0, "tex.png"⟩,
         { entries := [{ key := "tex.png", tex := ⟨0, "tex.png"⟩, strong := false }],
           extRefs := fun _ => 0, preloading := false, nextId := 1 }, 1) ∧
    textureFromFile (fun _ => true)
        { entries := [{ key := "tex.png", tex := ⟨0, "tex.png"⟩, strong := false }],
          extRefs := fun _ => 0, preloading := false, nextId := 1 }
        "dir/tex.png"
      = (some ⟨0, "tex.png"⟩,
         { entries := [{ key := "tex.png", tex := ⟨0, "tex.png"⟩, strong := false }],
           extRefs := fun _ => 0, preloading := false, nextId := 1 }, 0) :=
  ⟨rfl,
   textureFromFile_second_call_identical (fun _ => true)
     { entries := [], extRefs := fun _ => 0, preloading := false, nextId := 0 }
     "dir/tex.png" ⟨0, "tex.png"⟩
     { entries := [{ key := "tex.png", tex := ⟨0, "tex.png"⟩, strong := false }],
       extRefs := fun _ => 0, preloading := false, nextId := 1 } 1 rfl⟩

/-- C2: adding a texture whose name is already cached by a distinct entry
raises the duplicate-name assertion (a reported error, not a silent no-op
or overwrite); the cache state is left unchanged, and the previously
cached entry is still retrievable under that name. -/
theorem addTexture_duplicate_name_fails (st : TexCache) (t e : CachedTex)
    (hdup : getTextureNamed st t.name = some e) (_hdist : e ≠ t) :
    addTexture st t = .error (duplicateNameAssertion t.name) ∧
    applyCacheOp st (.add t) = st ∧
    getTextureNamed st t.name = some e := by
  have h1 : addTexture st t = .error (duplicateNameAssertion t.name) := by
    simp [addTexture, hdup]
  refine ⟨h1, ?_, hdup⟩
  simp [applyCacheOp, h1]

/-- C2 witness: adding a second texture named `a.png` to a cache already
holding a distinct texture under that name fails and changes nothing. -/
theorem addTexture_duplicate_name_witness :
    addTexture
        { entries := [{ key := "a.png", tex := ⟨0, "a.png"⟩, strong := false }],
          extRefs := fun _ => 0, preloading := false, nextId := 1 }
        ⟨1, "a.png"⟩
      = .error (duplicateNameAssertion "a.png") ∧
    applyCacheOp
        { entries := [{ key := "a.png", tex := ⟨0, "a.png"⟩, strong := false }],
          extRefs := fun _ => 0, preloading := false, nextId := 1 }
        (.add ⟨1, "a.png"⟩)
      = { entries := [{ key := "a.png", tex := ⟨0, "a.png"⟩, strong := false }],
          extRefs := fun _ => 0, preloading := false, nextId := 1 } :=
  ⟨(addTexture_duplicate_name_fails
      { entries := [{ key := "a.png", tex := ⟨0, "a.png"⟩, strong := false }],
        extRefs := fun _ => 0, preloading := false, nextId := 1 }
      ⟨1, "a.png"⟩ ⟨0, "a.png"⟩ rfl (by decide)).1,
   (addTexture_duplicate_name_fails
      { entries := [{ key := "a.png", tex := ⟨0, "a.png"⟩, strong := false }],
        extRefs := fun _ => 0, preloading := false, nextId := 1 }
      ⟨1, "a.png"⟩ ⟨0, "a.png"⟩ rfl (by decide)).2.1⟩

/-- C3: on a cache miss, a six-face cube load (explicit six files or a
file-path pattern) fails as a whole whenever any one face decode fails —
no cube texture is constructed and the cache is unmodified — and succeeds
exactly when all six decodes succeed, registering the new cube texture. -/
theorem cube_load_all_or_nothing (files : String → Bool) (st : TexCache)
    (p1 p2 p3 p4 p5 p6 pat : String)
    (hmiss : getTextureNamed st (textureNameFromFilePath p1) = none)
    (hmissPat : getTextureNamed st
      (textureNameFromFilePath (substFormatMarker pat "")) = none) :
    (((files p1 && files p2 && files p3 && files p4 && files p5 && files p6) = false) →
      textureCubeFromFiles files st p1 p2 p3 p4 p5 p6 = (none, st)) ∧
    (((files p1 && files p2 && files p3 && files p4 && files p5 && files p6) = true) →
      textureCubeFromFiles files st p1 p2 p3 p4 p5 p6
        = (some ⟨st.nextId, textureNameFromFilePath p1⟩,
           { cacheInsert st ⟨st.nextId, textureNameFromFilePath p1⟩ with
               nextId := st.nextId + 1 })) ∧
    ((((cubeFaceSubstrings.map (fun face => substFormatMarker pat face)).all files) = false) →
      textureCubeFromFilePattern files st pat = (none, st)) ∧
    ((((cubeFaceSubstrings.map (fun face => substFormatMarker pat face)).all files) = true) →
      textureCubeFromFilePattern files st pat
        = (some ⟨st.nextId, textureNameFromFilePath (substFormatMarker pat "")⟩,
           { cacheInsert st ⟨st.nextId, textureNameFromFilePath (substFormatMarker pat "")⟩ with
               nextId := st.nextId + 1 })) := by
  refine ⟨?_, ?_, ?_, ?_⟩
  · intro hfail
    simp [textureCubeFromFiles, hmiss, hfail]
  · intro hok
    simp [textureCubeFromFiles, hmiss, hok]
  · intro hfail
    simp [textureCubeFromFilePattern, hmissPat, hfail]
  · intro hok
    simp [textureCubeFromFilePattern, hmissPat, hok]

/-- C3 witness: with the `TexNegZ.png` face failing to decode, the pattern
load `Tex%@.png` on an empty cache fails and leaves the cache unmodified. -/
theorem cube_load_all_or_nothing_witness :
    textureCubeFromFilePattern (fun p => p != "TexNegZ.png")
        { entries := [], extRefs := fun _ => 0, preloading := false, nextId := 0 }
        "Tex%@.png"
      = (none, { entries := [], extRefs := fun _ => 0, preloading := false, nextId := 0 }) :=
  (cube_load_all_or_nothing (fun p => p != "TexNegZ.png")
    { entries := [], extRefs := fun _ => 0, preloading := false, nextId := 0 }
    "a" "b" "c" "d" "e" "f" "Tex%@.png" rfl rfl).2.2.1 (by decide)

/-- C6: every file-derived instance is named by the last path component of
its primary file or pattern argument: `textureNameFromFilePath` is the
last path component; the texture returned by a cache-miss `textureFromFile`
carries that name; the cube-pattern factory names its texture by
substituting the empty string into the `%@` marker and taking the
unqualified file name; and `Tex%@.png` yields the name `Tex.png`. -/
theorem texture_name_is_last_path_component (files : String → Bool) (st : TexCache)
    (filePath pat : String)
    (hmiss : getTextureNamed st (textureNameFromFilePath filePath) = none)
    (hmissPat : getTextureNamed st
      (textureNameFromFilePath (substFormatMarker pat "")) = none) :
    textureNameFromFilePath filePath = lastPathComponent filePath ∧
    (∀ t s1 n, textureFromFile files st filePath = (some t, s1, n) →
      t.name = lastPathComponent filePath) ∧
    (∀ t s1, textureCubeFromFilePattern files st pat = (some t, s1) →
      t.name = lastPathComponent (substFormatMarker pat "")) ∧
    substFormatMarker "Tex%@.png" "" = "Tex.png" ∧
    lastPathComponent "Tex.png" = "Tex.png" := by
  refine ⟨rfl, ?_, ?_, by decide, by decide⟩
  · intro t s1 n h
    simp only [textureFromFile, hmiss] at h
    cases hf : files filePath with
    | true =>
      rw [hf] at h
      simp only [if_true, Prod.mk.injEq, Option.some.injEq] at h
      rw [← h.1]
      rfl
    | false =>
      rw [hf] at h
      simp at h
  · intro t s1 h
    simp only [textureCubeFromFilePattern, hmissPat] at h
    cases hf : (cubeFaceSubstrings.map (fun face => substFormatMarker pat face)).all files with
    | true =>
      rw [hf] at h
      simp only [if_true, Prod.mk.injEq, Option.some.injEq] at h
      rw [← h.1]
      rfl
    | false =>
      rw [hf] at h
      simp at h

/-- C6 witness: on an empty cache with all files decoding, the pattern
factory for `Tex%@.png` returns a texture whose name is `Tex.png`. -/
theorem texture_name_witness :
    (⟨0, "Tex.png"⟩ : CachedTex).name
      = lastPathComponent (substFormatMarker "Tex%@.png" "") :=
  (texture_name_is_last_path_component (fun _ => true)
    { entries := [], extRefs := fun _ => 0, preloading := false, nextId := 0 }
    "dir/pic.png" "Tex%@.png" rfl rfl).2.2.1 ⟨0, "Tex.png"⟩
    { cacheInsert { entries := [], extRefs := fun _ => 0, preloading := false, nextId := 0 }
        ⟨0, "Tex.png"⟩ with nextId := 1 } rfl

/-- An entry found under a name survives a filter that keeps it. -/
theorem findEntryNamed_filter_keep (nm : String) (keep : TexCacheEntry → Bool)
    (l : List TexCacheEntry) (e : TexCacheEntry)
    (h : findEntryNamed nm l = some e) (hk : keep e = true) :
    findEntryNamed nm (l.filter keep) = some e := by
  induction l with
  | nil => simp [findEntryNamed] at h
  | cons x rest ih =>
    simp only [findEntryNamed] at h
    by_cases hx : x.key = nm
    · rw [if_pos hx] at h
      cases h
      rw [List.filter_cons, if_pos hk]
      simp [findEntryNamed, hx]
    · rw [if_neg hx] at h
      rw [List.filter_cons]
      by_cases hkx : keep x = true
      · rw [if_pos hkx]
        simp only [findEntryNamed, if_neg hx]
        exact ih h
      · rw [if_neg hkx]
        exact ih h

/-- If every entry under a name is dropped by a filter, lookup after the
filter finds nothing. -/
theorem findEntryNamed_filter_none (nm : String) (keep : TexCacheEntry → Bool)
    (l : List TexCacheEntry)
    (h : ∀ e ∈ l, e.key = nm → keep e = false) :
    findEntryNamed nm (l.filter keep) = none := by
  induction l with
  | nil => simp [findEntryNamed]
  | cons x rest ih =>
    rw [List.filter_cons]
    by_cases hkx : keep x = true
    · rw [if_pos hkx]
      simp only [findEntryNamed]
      by_cases hx : x.key = nm
      · rw [h x (List.mem_cons_self x rest) hx] at hkx
        cases hkx
      · rw [if_neg hx]
        exact ih (fun e he => h e (List.mem_cons_of_mem x he))
    · rw [if_neg hkx]
      exact ih (fun e he => h e (List.mem_cons_of_mem x he))

/-- A strong cache entry survives any single cache operation other than an
explicit removal under its name. -/
theorem applyCacheOp_preserves_strong_entry (st : TexCache) (nm : String) (t : CachedTex)
    (op : CacheOp)
    (h : getEntryNamed st nm = some ⟨nm, t, true⟩)
    (hop : op ≠ CacheOp.removeNamed nm) :
    getEntryNamed (applyCacheOp st op) nm = some ⟨nm, t, true⟩ := by
  cases op with
  | setIsPreloading b => exact h
  | add u =>
    simp only [applyCacheOp]
    cases hadd : addTexture st u with
    | error msg => exact h
    | ok st' =>
      simp only [addTexture] at hadd
      cases hu : getTextureNamed st u.name with
      | some v => rw [hu] at hadd; cases hadd
      | none =>
        rw [hu] at hadd
        cases hadd
        by_cases hun : u.name = nm
        · exfalso
          rw [hun] at hu
          rw [getTextureNamed, h] at hu
          cases hu
        · show findEntryNamed nm
            ({ key := u.name, tex := u, strong := st.preloading } :: st.entries) = _
          simp only [findEntryNamed, if_neg hun]
          exact h
  | retainTexture id => exact h
  | releaseTexture id =>
    simp only [applyCacheOp]
    split
    · exact findEntryNamed_filter_keep nm _ st.entries _ h (by simp)
    · exact h
  | removeNamed nm' =>
    have hne : nm' ≠ nm := by
      intro hh
      exact hop (by rw [hh])
    simp only [applyCacheOp, removeTextureNamed]
    apply findEntryNamed_filter_keep nm _ st.entries _ h
    simp only [bne_iff_ne, ne_eq]
    intro hh
    exact hne hh.symm

/-- C9: the retention mode of a cache entry is captured from the
process-wide preloading flag at insertion time; later changes of the flag
do not alter recorded modes.  A strong (preloading) entry survives every
sequence of cache operations that contains no explicit removal under its
name — in particular any number of external-reference releases — while a
weak entry whose last external owner releases it is automatically removed
and is no longer retrievable. -/
theorem cache_retention_modes (st : TexCache) (t : CachedTex) (ops : List CacheOp) (b : Bool) :
    (getTextureNamed st t.name = none →
      getEntryNamed (applyCacheOp st (.add t)) t.name
        = some ⟨t.name, t, st.preloading⟩) ∧
    ((applyCacheOp st (.setIsPreloading b)).entries = st.entries) ∧
    (getEntryNamed st t.name = some ⟨t.name, t, true⟩ →
      (∀ op ∈ ops, op ≠ CacheOp.removeNamed t.name) →
      getEntryNamed (applyCacheOps st ops) t.name = some ⟨t.name, t, true⟩) ∧
    ((∀ e ∈ st.entries, e.key = t.name → e.tex = t ∧ e.strong = false) →
      st.extRefs t.texId = 1 →
      getTextureNamed (applyCacheOp st (.releaseTexture t.texId)) t.name = none) := by
  refine ⟨?_, rfl, ?_, ?_⟩
  · intro hmiss
    simp only [applyCacheOp, addTexture, hmiss, cacheInsert]
    simp [getEntryNamed, findEntryNamed]
  · intro h hops
    induction ops generalizing st with
    | nil => exact h
    | cons op rest ih =>
      exact ih (applyCacheOp st op)
        (applyCacheOp_preserves_strong_entry st t.name t op h
          (hops op (List.mem_cons_self op rest)))
        (fun o ho => hops o (List.mem_cons_of_mem op ho))
  · intro hweak href
    simp only [applyCacheOp, href]
    rw [if_pos trivial]
    rw [getTextureNamed, getEntryNamed]
    rw [findEntryNamed_filter_none]
    · rfl
    · intro e he hkey
      obtain ⟨htex, hstrong⟩ := hweak e he hkey
      simp [hstrong, htex]

/-- C9 witness: a strong entry added while preloading survives the release
of its last external owner, while a weak entry is pruned by it. -/
theorem cache_retention_modes_witness :
    getEntryNamed
        (applyCacheOps
          { entries := [{ key := "A.png", tex := ⟨0, "A.png"⟩, strong := true }],
            extRefs := fun _ => 1, preloading := true, nextId := 1 }
          [.releaseTexture 0]) "A.png"
      = some ⟨"A.png", ⟨0, "A.png"⟩, true⟩ ∧
    getTextureNamed
        (applyCacheOp
          { entries := [{ key := "B.png", tex := ⟨1, "B.png"⟩, strong := false }],
            extRefs := fun _ => 1, preloading := false, nextId := 2 }
          (.releaseTexture 1)) "B.png"
      = none :=
  ⟨(cache_retention_modes
      { entries := [{ key := "A.png", tex := ⟨0, "A.png"⟩, strong := true }],
        extRefs := fun _ => 1, preloading := true, nextId := 1 }
      ⟨0, "A.png"⟩ [.releaseTexture 0] true).2.2.1 rfl (by decide),
   (cache_retention_modes
      { entries := [{ key := "B.png", tex := ⟨1, "B.png"⟩, strong := false }],
        extRefs := fun _ => 1, preloading := false, nextId := 2 }
      ⟨1, "B.png"⟩ [] true).2.2.2 (by decide) rfl⟩

end CC3
